import Mathlib

/-!
Shallow embedding of src/genwallpaper/generator.py.

Conventions used throughout:
* Python float arithmetic is modelled exactly over the rationals; the
  properties checked here are discrete and structural and do not depend on
  rounding at machine precision (the decimal literals 1.2 and 0.5 are
  embedded as 12/10 and 1/2).
* The built-in int(x) conversion truncates toward zero; it is embedded as
  pyInt below.
* The process-wide mutable class state of ColorPalette is embedded as an
  explicit state record threaded through the operations; the random
  shuffle of random.shuffle is embedded as an oracle supplying, for each
  draw, the shuffled list to install when a refill happens (theorems
  constrain it to be a permutation of the catalog).
* Fallible steps (empty-queue pop, dictionary access, division by zero)
  return Option or Except, mirroring the exceptions Python would raise.
-/

/-- Python int() conversion applied to a real value: truncation toward zero. -/
def pyInt (q : ℚ) : ℤ := if 0 ≤ q then ⌊q⌋ else -⌊-q⌋

/-- RGB colour triple, as in the RGB type alias of the source. -/
abbrev RGB := ℕ × ℕ × ℕ

/-- One entry of ColorPalette.PALETTES: a dict with keys bg, fg, description. -/
structure Palette where
  bg : RGB
  fg : RGB
  description : String
deriving DecidableEq

namespace ColorPalette

/-- The curated palette catalog ColorPalette.PALETTES (generator.py lines 30-50). -/
def PALETTES : List Palette := [
  ⟨(30, 30, 35), (200, 200, 210), "Neutral dark"⟩,
  ⟨(25, 35, 45), (180, 200, 220), "Ocean dark"⟩,
  ⟨(40, 30, 45), (220, 200, 230), "Purple haze"⟩,
  ⟨(35, 40, 35), (200, 220, 200), "Forest dark"⟩,
  ⟨(240, 240, 245), (60, 60, 70), "Neutral light"⟩,
  ⟨(235, 240, 245), (40, 50, 60), "Sky light"⟩,
  ⟨(245, 235, 240), (50, 40, 55), "Rose light"⟩,
  ⟨(240, 245, 240), (45, 55, 45), "Mint light"⟩,
  ⟨(139, 58, 74), (176, 196, 222), "Stiletto"⟩,
  ⟨(245, 247, 220), (95, 158, 160), "Mint Julep"⟩,
  ⟨(187, 229, 211), (180, 76, 67), "Surf"⟩,
  ⟨(46, 75, 143), (181, 184, 227), "Sapphire"⟩,
  ⟨(75, 0, 130), (255, 182, 193), "Blue Gem"⟩,
  ⟨(74, 103, 65), (255, 69, 0), "Shadow Green"⟩,
  ⟨(227, 38, 54), (255, 215, 0), "Alizarin Crimson"⟩,
  ⟨(102, 205, 170), (139, 69, 19), "Monte Carlo"⟩]

/-- The mutable class state of ColorPalette: the PALETTES class attribute and
the _palette_queue class attribute. -/
structure State where
  palettes : List Palette
  palette_queue : List Palette
deriving DecidableEq

/-- Process start state: _palette_queue is initialised empty. -/
def initState : State := ⟨PALETTES, []⟩

/-- The dict returned by get_random_palette, as a key/value association list. -/
def paletteToDict (p : Palette) : List (String × RGB) :=
  [("bg", p.bg), ("fg", p.fg)]

/-- ColorPalette.get_random_palette (generator.py lines 52-69).
If the queue is empty it is refilled with a shuffled copy of PALETTES; the
argument shuffled stands for the result of random.shuffle on that copy.
Then the head of the queue is popped and returned as a dict with keys
bg and fg only.  Popping an empty list (impossible while PALETTES is
nonempty) is the error case, none. -/
def get_random_palette (shuffled : List Palette) (s : State) :
    Option (List (String × RGB) × State) :=
  match (if s.palette_queue.isEmpty then shuffled else s.palette_queue) with
  | [] => none
  | p :: rest => some (paletteToDict p, ⟨s.palettes, rest⟩)

/-- n consecutive calls to get_random_palette; the oracle gives, for the
i-th call, the shuffled list a refill at that call would install.  Returns
the list of returned dicts and the final state. -/
def drawN (oracle : ℕ → List Palette) : ℕ → ℕ → State →
    Option (List (List (String × RGB)) × State)
  | 0, _, s => some ([], s)
  | n + 1, i, s =>
    match get_random_palette (oracle i) s with
    | none => none
    | some (d, s1) =>
      match drawN oracle n (i + 1) s1 with
      | none => none
      | some (ds, s2) => some (d :: ds, s2)

end ColorPalette

/-- The result of _load_font: either a truetype font loaded by name, or the
PIL built-in default font. -/
inductive FontHandle where
  | truetype (name : String) (size : ℕ)
  | default
deriving DecidableEq

/-- The fixed preference-ordered candidate list of _load_font
(generator.py lines 77-82). -/
def font_names : List String :=
  ["DejaVuSans-Bold.ttf", "Arial Bold.ttf", "Helvetica Bold.ttf", "OpenSans-Bold.ttf"]

/-- The for loop of _load_font: try each candidate in order; a failed load
(OSError) advances to the next one.  The avail argument tells which font
files the system can load. -/
def tryFonts (avail : String → Bool) (size : ℕ) : List String → Option (FontHandle × ℕ)
  | [] => none
  | n :: rest =>
    if avail n then some (FontHandle.truetype n size, size) else tryFonts avail size rest

/-- Embedding of _load_font (generator.py lines 72-94): candidate size is height // 5; if no
candidate loads, fall back to the built-in default at size height // 10. -/
def _load_font (avail : String → Bool) (height : ℕ) : FontHandle × ℕ :=
  let font_size := height / 5
  match tryFonts avail font_size font_names with
  | some r => r
  | none => (FontHandle.default, height / 10)

/-- The raster calls made by _create_rotated_text_template, recorded as data:
the working surface, the text draw call and the rotation. -/
structure TextTemplate where
  text : String
  surfaceW : ℕ
  surfaceH : ℕ
  surfaceColor : ℕ × ℕ × ℕ × ℕ
  drawPos : ℕ × ℕ
  fill : ℕ × ℕ × ℕ × ℕ
  anchor : String
  rotateDegrees : ℕ
  expand : Bool
deriving DecidableEq

/-- Embedding of _create_rotated_text_template (generator.py lines 96-118).  The surface is
text_width * 2 by text_height * 2, fully transparent; the text is drawn at
(text_width // 2, text_height // 2) with anchor mm in the foreground colour at
alpha 255; the surface is then rotated 45 degrees with expansion. -/
def _create_rotated_text_template (text : String) (text_width text_height : ℕ)
    (fg_color : RGB) : TextTemplate :=
  { text := text
    surfaceW := text_width * 2
    surfaceH := text_height * 2
    surfaceColor := (0, 0, 0, 0)
    drawPos := (text_width / 2, text_height / 2)
    fill := (fg_color.1, fg_color.2.1, fg_color.2.2, 255)
    anchor := "mm"
    rotateDegrees := 45
    expand := true }

/-- diagonal_spacing = (text_width + text_height) / 2 (generator.py line 154). -/
def diagonal_spacing (tw th : ℕ) : ℚ := ((tw : ℚ) + th) / 2

/-- spacing = diagonal_spacing * 1.2 (generator.py line 157). -/
def spacing (tw th : ℕ) : ℚ := diagonal_spacing tw th * (12 / 10)

/-- offset = spacing * 0.5 (generator.py line 158). -/
def offset (tw th : ℕ) : ℚ := spacing tw th * (1 / 2)

/-- margin = max(text_width, text_height) (generator.py line 166). -/
def marginOf (tw th : ℕ) : ℕ := max tw th

/-- min_row = max(-3, int((-margin) / spacing)) (generator.py line 167). -/
def min_row (tw th : ℕ) : ℤ :=
  max (-3) (pyInt (-(marginOf tw th : ℚ) / spacing tw th))

/-- max_row = min(int((height + margin) / spacing) + 3, int(height / spacing) + 3)
(generator.py line 168). -/
def max_row (height tw th : ℕ) : ℤ :=
  min (pyInt (((height : ℚ) + marginOf tw th) / spacing tw th) + 3)
    (pyInt ((height : ℚ) / spacing tw th) + 3)

/-- min_col = max(-3, int((-margin) / spacing)) (generator.py line 169). -/
def min_col (tw th : ℕ) : ℤ :=
  max (-3) (pyInt (-(marginOf tw th : ℚ) / spacing tw th))

/-- max_col = min(int((width + margin) / spacing) + 3, int(width / spacing) + 3)
(generator.py line 170). -/
def max_col (width tw th : ℕ) : ℤ :=
  min (pyInt (((width : ℚ) + marginOf tw th) / spacing tw th) + 3)
    (pyInt ((width : ℚ) / spacing tw th) + 3)

/-- x = col * spacing + row * offset (generator.py line 176). -/
def centerX (tw th : ℕ) (row col : ℤ) : ℚ :=
  (col : ℚ) * spacing tw th + (row : ℚ) * offset tw th

/-- y = row * spacing (generator.py line 177). -/
def centerY (tw th : ℕ) (row : ℤ) : ℚ := (row : ℚ) * spacing tw th

/-- paste_x = int(x - rotated_text.width // 2) (generator.py line 180). -/
def pasteX (tw th tileW : ℕ) (row col : ℤ) : ℤ :=
  pyInt (centerX tw th row col - ((tileW / 2 : ℕ) : ℚ))

/-- paste_y = int(y - rotated_text.height // 2) (generator.py line 181). -/
def pasteY (tw th tileH : ℕ) (row : ℤ) : ℤ :=
  pyInt (centerY tw th row - ((tileH / 2 : ℕ) : ℚ))

/-- The culling test of generator.py lines 184-185: the tile is skipped when
paste_x + width < 0 or paste_x >= width or paste_y + height < 0 or
paste_y >= height. -/
def skip_condition (width height tileW tileH : ℕ) (px py : ℤ) : Prop :=
  px + tileW < 0 ∨ (width : ℤ) ≤ px ∨ py + tileH < 0 ∨ (height : ℤ) ≤ py

instance (width height tileW tileH : ℕ) (px py : ℤ) :
    Decidable (skip_condition width height tileW tileH px py) := by
  unfold skip_condition; infer_instance

/-- The integer range row in range(lo, hi). -/
def intRange (lo hi : ℤ) : List ℤ :=
  (List.range (hi - lo).toNat).map (fun (k : ℕ) => lo + (k : ℤ))

/-- The double loop of generator.py lines 173-189: for every (row, col) in the
computed ranges, compute the paste position; keep it unless the culling test
fires.  The returned list records, in loop order, the positions at which
image.paste is called. -/
def tilePositions (width height tw th tileW tileH : ℕ) : List (ℤ × ℤ) :=
  (intRange (min_row tw th) (max_row height tw th)).flatMap fun row =>
    (intRange (min_col tw th) (max_col width tw th)).filterMap fun col =>
      if skip_condition width height tileW tileH (pasteX tw th tileW row col)
          (pasteY tw th tileH row) then none
      else some (pasteX tw th tileW row col, pasteY tw th tileH row)

/-- The picture written for one text: the arguments of Image.new, the saved
path, and the compositing calls performed on the canvas. -/
structure ImageFile where
  path : String
  mode : String
  width : ℕ
  height : ℕ
  bg : RGB
  template : TextTemplate
  pastes : List (ℤ × ℤ)
deriving DecidableEq

/-- The external facts one invocation of generate_wallpapers depends on:
which font files load, the text measurement bbox of draw.textbbox under the
loaded font, the size of the rotated template produced by Image.rotate with
expansion, and the shuffle results used by palette refills (indexed by the
position of the draw). -/
structure GenConfig where
  fontAvail : String → Bool
  measure : String → ℕ × ℕ
  tileDims : ℕ → ℕ → ℕ × ℕ
  oracle : ℕ → List Palette

/-- The body of the for text in texts loop of generate_wallpapers
(generator.py lines 140-193) for one text: draw a palette, create the canvas,
measure the text, build the rotated template, compute the grid and composite,
then save.  Errors mirror the exceptions Python would raise: popping from an
empty queue, a missing dictionary key, and division by zero when spacing is 0
(the division int((-margin) / spacing) of line 167). -/
def processText (cfg : GenConfig) (output_dir : String) (width height : ℕ)
    (i : ℕ) (s : ColorPalette.State) (text : String) :
    Except String (ImageFile × ColorPalette.State) :=
  match ColorPalette.get_random_palette (cfg.oracle i) s with
  | none => .error "IndexError"
  | some (palette, s1) =>
    match palette.lookup "bg", palette.lookup "fg" with
    | some bg, some fg =>
      let tw := (cfg.measure text).1
      let th := (cfg.measure text).2
      let tmpl := _create_rotated_text_template text tw th fg
      let tdims := cfg.tileDims tw th
      if spacing tw th = 0 then .error "ZeroDivisionError"
      else
        .ok ({ path := output_dir ++ "/" ++ text ++ ".png"
               mode := "RGB"
               width := width
               height := height
               bg := bg
               template := tmpl
               pastes := tilePositions width height tw th tdims.1 tdims.2 }, s1)
    | _, _ => .error "KeyError"

/-- The loop over texts, threading the palette state and the draw index. -/
def generateGo (cfg : GenConfig) (output_dir : String) (width height : ℕ) :
    ℕ → ColorPalette.State → List String → Except String (List ImageFile)
  | _, _, [] => .ok []
  | i, s, text :: rest =>
    match processText cfg output_dir width height i s text with
    | .error e => .error e
    | .ok (f, s1) =>
      match generateGo cfg output_dir width height (i + 1) s1 rest with
      | .error e => .error e
      | .ok fs => .ok (f :: fs)

/-- generate_wallpapers (generator.py lines 120-193): load the font once, then
process each text in order.  The result is the list of files written, one per
text, or the first error raised. -/
def generate_wallpapers (cfg : GenConfig) (texts : List String)
    (output_dir : String) (width height : ℕ) (s0 : ColorPalette.State) :
    Except String (List ImageFile) :=
  let _font := _load_font cfg.fontAvail height
  generateGo cfg output_dir width height 0 s0 texts

/-- The canvas rectangle is [0, width) x [0, height) and the tile box is
[px, px + tileW) x [py, py + tileH); the two are disjoint when no pixel lies
in both. -/
def tile_disjoint (width height tileW tileH : ℕ) (px py : ℤ) : Prop :=
  ∀ x y : ℤ, px ≤ x → x < px + tileW → py ≤ y → y < py + tileH →
    ¬ (0 ≤ x ∧ x < width ∧ 0 ≤ y ∧ y < height)

/-- The placement geometry claimed by the spec, written from its words for
comparison with the loop of the source: base spacing s = (w + h) / 2 * 1.2,
row offset o = s * 0.5, placement centre (col * s + row * o, row * s), paste
coordinate the centre minus half the rotated tile dimension (integer half,
with int() truncation); a pair is produced by the loop exactly when its
indices lie in the computed ranges and the culling test does not fire. -/
def placement_formula (tw th width height tileW tileH : ℕ) : Prop :=
  spacing tw th = ((tw : ℚ) + (th : ℚ)) / 2 * (12 / 10) ∧
  offset tw th = spacing tw th * (1 / 2) ∧
  ∀ p : ℤ × ℤ,
    p ∈ tilePositions width height tw th tileW tileH ↔
    ∃ row col : ℤ,
      (min_row tw th ≤ row ∧ row < max_row height tw th ∧
       min_col tw th ≤ col ∧ col < max_col width tw th) ∧
      ¬ skip_condition width height tileW tileH
        (pyInt ((col : ℚ) * spacing tw th + (row : ℚ) * offset tw th -
          ((tileW / 2 : ℕ) : ℚ)))
        (pyInt ((row : ℚ) * spacing tw th - ((tileH / 2 : ℕ) : ℚ))) ∧
      p = (pyInt ((col : ℚ) * spacing tw th + (row : ℚ) * offset tw th -
          ((tileW / 2 : ℕ) : ℚ)),
        pyInt ((row : ℚ) * spacing tw th - ((tileH / 2 : ℕ) : ℚ)))

/-- A concrete run of shuffle results: the first refill installs the catalog
in its stored order, any later refill installs it reversed (both are valid
permutations of the catalog). -/
def ceOracle : ℕ → List Palette := fun i =>
  if i < 16 then ColorPalette.PALETTES else ColorPalette.PALETTES.reverse

/-- A concrete environment in which the measured bbox of every text is empty,
as PIL reports for the empty string. -/
def ceConfig : GenConfig :=
  ⟨fun _ => false, fun _ => (0, 0), fun _ _ => (0, 0), fun _ => ColorPalette.PALETTES⟩

/-- A concrete benign environment: every font loads, every text measures to a
5 by 7 bbox, the rotated tile of a w by h text is (w + h) square, refills use
the identity shuffle. -/
def okConfig : GenConfig :=
  ⟨fun _ => true, fun _ => (5, 7), fun a b => (a + b, a + b),
    fun _ => ColorPalette.PALETTES⟩

/-! ## Helper lemmas -/

theorem pyInt_of_nonneg {q : ℚ} (h : 0 ≤ q) : pyInt q = ⌊q⌋ := if_pos h

theorem pyInt_nonpos {q : ℚ} (h : q ≤ 0) : pyInt q ≤ 0 := by
  unfold pyInt
  split
  · exact Int.floor_nonpos h
  · have h2 : (0 : ℤ) ≤ ⌊-q⌋ := Int.floor_nonneg.mpr (by linarith)
    omega

theorem spacing_pos {tw th : ℕ} (h : 0 < tw + th) : 0 < spacing tw th := by
  unfold spacing diagonal_spacing
  have h1 : (0 : ℚ) < (tw : ℚ) + th := by exact_mod_cast h
  have h2 : (0 : ℚ) < ((tw : ℚ) + th) / 2 := by positivity
  exact mul_pos h2 (by norm_num)

theorem spacing_of_zero {tw th : ℕ} (h : tw + th = 0) : spacing tw th = 0 := by
  have htw : tw = 0 := by omega
  have hth : th = 0 := by omega
  subst htw hth
  norm_num [spacing, diagonal_spacing]

theorem intRange_mem {lo hi x : ℤ} : x ∈ intRange lo hi ↔ lo ≤ x ∧ x < hi := by
  unfold intRange
  constructor
  · intro hx
    obtain ⟨k, hk, hkx⟩ := List.mem_map.mp hx
    rw [List.mem_range] at hk
    have hkx2 : lo + (k : ℤ) = x := hkx
    omega
  · intro hx
    refine List.mem_map.mpr ⟨(x - lo).toNat, ?_, ?_⟩
    · rw [List.mem_range]
      omega
    · show lo + ((x - lo).toNat : ℤ) = x
      omega

theorem get_random_palette_palettes {sh : List Palette} {s : ColorPalette.State}
    {d : List (String × RGB)} {s1 : ColorPalette.State}
    (h : ColorPalette.get_random_palette sh s = some (d, s1)) :
    s1.palettes = s.palettes := by
  unfold ColorPalette.get_random_palette at h
  split at h
  · exact absurd h (by simp)
  · simp only [Option.some.injEq, Prod.mk.injEq] at h
    rw [← h.2]

theorem lookup_bg (p : Palette) :
    List.lookup "bg" (ColorPalette.paletteToDict p) = some p.bg := rfl

theorem lookup_fg (p : Palette) :
    List.lookup "fg" (ColorPalette.paletteToDict p) = some p.fg := rfl

theorem processText_ok (cfg : GenConfig) (dir : String) (width height i : ℕ)
    (s : ColorPalette.State) (text : String)
    (hdraw : (if s.palette_queue.isEmpty then cfg.oracle i else s.palette_queue) ≠ [])
    (hm : 0 < (cfg.measure text).1 + (cfg.measure text).2) :
    ∃ f s1, processText cfg dir width height i s text = .ok (f, s1) ∧
      f.path = dir ++ "/" ++ text ++ ".png" ∧ f.mode = "RGB" ∧
      f.width = width ∧ f.height = height ∧ s1.palettes = s.palettes := by
  cases hq : (if s.palette_queue.isEmpty then cfg.oracle i else s.palette_queue) with
  | nil => exact absurd hq hdraw
  | cons p rest =>
    have hd : ColorPalette.get_random_palette (cfg.oracle i) s =
        some (ColorPalette.paletteToDict p, ⟨s.palettes, rest⟩) := by
      unfold ColorPalette.get_random_palette
      rw [hq]
    have hspac : ¬ (spacing (cfg.measure text).1 (cfg.measure text).2 = 0) :=
      (spacing_pos hm).ne'
    have heq : processText cfg dir width height i s text =
        .ok ({ path := dir ++ "/" ++ text ++ ".png"
               mode := "RGB"
               width := width
               height := height
               bg := p.bg
               template := _create_rotated_text_template text (cfg.measure text).1
                 (cfg.measure text).2 p.fg
               pastes := tilePositions width height (cfg.measure text).1
                 (cfg.measure text).2
                 (cfg.tileDims (cfg.measure text).1 (cfg.measure text).2).1
                 (cfg.tileDims (cfg.measure text).1 (cfg.measure text).2).2 },
          ⟨s.palettes, rest⟩) := by
      simp only [processText, hd, lookup_bg, lookup_fg, if_neg hspac]
    exact ⟨_, _, heq, rfl, rfl, rfl, rfl, rfl⟩

theorem processText_zero (cfg : GenConfig) (dir : String) (width height i : ℕ)
    (s : ColorPalette.State) (text : String)
    (hdraw : (if s.palette_queue.isEmpty then cfg.oracle i else s.palette_queue) ≠ [])
    (hm : (cfg.measure text).1 + (cfg.measure text).2 = 0) :
    processText cfg dir width height i s text = .error "ZeroDivisionError" := by
  cases hq : (if s.palette_queue.isEmpty then cfg.oracle i else s.palette_queue) with
  | nil => exact absurd hq hdraw
  | cons p rest =>
    have hd : ColorPalette.get_random_palette (cfg.oracle i) s =
        some (ColorPalette.paletteToDict p, ⟨s.palettes, rest⟩) := by
      unfold ColorPalette.get_random_palette
      rw [hq]
    have hspac : spacing (cfg.measure text).1 (cfg.measure text).2 = 0 :=
      spacing_of_zero hm
    simp only [processText, hd, lookup_bg, lookup_fg, if_pos hspac]

theorem generateGo_ok (cfg : GenConfig) (dir : String) (width height : ℕ)
    (horacle : ∀ i, (cfg.oracle i).Perm ColorPalette.PALETTES) :
    ∀ (texts : List String) (i : ℕ) (s : ColorPalette.State),
      s.palettes = ColorPalette.PALETTES →
      (∀ t ∈ texts, 0 < (cfg.measure t).1 + (cfg.measure t).2) →
      ∃ files, generateGo cfg dir width height i s texts = .ok files ∧
        files.map (fun f => f.path) = texts.map (fun t => dir ++ "/" ++ t ++ ".png") ∧
        ∀ f ∈ files, f.mode = "RGB" ∧ f.width = width ∧ f.height = height := by
  intro texts
  induction texts with
  | nil =>
    intro i s hpal hm
    exact ⟨[], rfl, rfl, by simp⟩
  | cons t rest ih =>
    intro i s hpal hm
    have hdraw : (if s.palette_queue.isEmpty then cfg.oracle i
        else s.palette_queue) ≠ [] := by
      split
      · intro hnil
        have hlen := (horacle i).length_eq
        rw [hnil] at hlen
        exact absurd hlen.symm (by decide)
      · rename_i hne
        intro hnil
        rw [hnil] at hne
        exact hne rfl
    obtain ⟨f, s1, heq, hpath, hmode, hw, hh, hpals⟩ :=
      processText_ok cfg dir width height i s t hdraw (hm t (List.mem_cons_self t rest))
    obtain ⟨files, heq2, hpaths, hprops⟩ :=
      ih (i + 1) s1 (hpals.trans hpal) (fun t2 ht2 => hm t2 (List.mem_cons_of_mem t ht2))
    refine ⟨f :: files, ?_, ?_, ?_⟩
    · simp only [generateGo, heq, heq2]
    · simp only [List.map_cons, hpaths, hpath]
    · intro f2 hf2
      rcases List.mem_cons.mp hf2 with h2 | h2
      · rw [h2]
        exact ⟨hmode, hw, hh⟩
      · exact hprops f2 h2

theorem tryFonts_none {avail : String → Bool} {size : ℕ} {l : List String}
    (h : ∀ n ∈ l, avail n = false) : tryFonts avail size l = none := by
  induction l with
  | nil => rfl
  | cons n rest ih =>
    have hn : avail n = false := h n (List.mem_cons_self n rest)
    simp only [tryFonts, hn]
    exact ih fun m hm => h m (List.mem_cons_of_mem n hm)

theorem tryFonts_first {avail : String → Bool} {size : ℕ} {l1 : List String}
    {n : String} {l2 : List String} (h1 : ∀ m ∈ l1, avail m = false)
    (hn : avail n = true) :
    tryFonts avail size (l1 ++ n :: l2) = some (FontHandle.truetype n size, size) := by
  induction l1 with
  | nil => simp [tryFonts, hn]
  | cons m rest ih =>
    have hm : avail m = false := h1 m (List.mem_cons_self m rest)
    simp only [List.cons_append, tryFonts, hm]
    simp only [Bool.false_eq_true, if_false]
    exact ih fun m2 hm2 => h1 m2 (List.mem_cons_of_mem m hm2)

theorem drawN_consume (oracle : ℕ → List Palette) (P : List Palette) :
    ∀ (q : List Palette) (i : ℕ),
      ColorPalette.drawN oracle q.length i ⟨P, q⟩ =
        some (q.map ColorPalette.paletteToDict, ⟨P, []⟩) := by
  intro q
  induction q with
  | nil => intro i; rfl
  | cons p rest ih =>
    intro i
    have hg : ColorPalette.get_random_palette (oracle i) ⟨P, p :: rest⟩ =
        some (ColorPalette.paletteToDict p, ⟨P, rest⟩) := rfl
    simp only [List.length_cons, ColorPalette.drawN, hg, ih (i + 1), List.map_cons]

theorem drawN_refill {oracle : ℕ → List Palette} {i : ℕ} {s : ColorPalette.State}
    (hq : s.palette_queue = []) (hne : oracle i ≠ []) :
    ColorPalette.drawN oracle (oracle i).length i s =
      some ((oracle i).map ColorPalette.paletteToDict, ⟨s.palettes, []⟩) := by
  obtain ⟨pal, queue⟩ := s
  simp only at hq
  subst hq
  cases hL : oracle i with
  | nil => exact absurd hL hne
  | cons p rest =>
    simp only [hL, List.length_cons, ColorPalette.drawN,
      ColorPalette.get_random_palette, List.isEmpty_nil, if_true, List.map_cons]
    have := drawN_consume oracle pal rest (i + 1)
    rw [this]

/-! ## C1 -/

/-- C1 (amended): across the catalog-size window of 16 consecutive draws
STARTING WHEN THE QUEUE IS EMPTY (so the window is aligned with a refill),
the multiset of returned palettes equals the full catalog, projected to its
bg/fg dicts, each exactly once.  The shuffle installed at the refill may be
any permutation of the catalog. -/
theorem drawN_window_is_catalog (oracle : ℕ → List Palette) (i : ℕ)
    (s : ColorPalette.State) (hpal : s.palettes = ColorPalette.PALETTES)
    (hq : s.palette_queue = [])
    (hperm : (oracle i).Perm ColorPalette.PALETTES) :
    ∃ ds s1, ColorPalette.drawN oracle 16 i s = some (ds, s1) ∧
      (↑ds : Multiset (List (String × RGB))) =
        ↑(ColorPalette.PALETTES.map ColorPalette.paletteToDict) := by
  have hne : oracle i ≠ [] := by
    intro hnil
    have := hperm.length_eq
    rw [hnil] at this
    exact absurd this.symm (by decide)
  have hlen : (oracle i).length = 16 := by
    rw [hperm.length_eq]
    rfl
  have hrun := drawN_refill hq hne
  rw [hlen] at hrun
  refine ⟨(oracle i).map ColorPalette.paletteToDict, ⟨s.palettes, []⟩, hrun, ?_⟩
  exact Multiset.coe_eq_coe.mpr (hperm.map ColorPalette.paletteToDict)

/-- Witness for C1: drawing 16 times from the initial (empty-queue) state
with an identity shuffle yields each catalog palette exactly once. -/
theorem drawN_window_is_catalog_witness :
    ∃ ds s1,
      ColorPalette.drawN (fun _ => ColorPalette.PALETTES) 16 0
        ColorPalette.initState = some (ds, s1) ∧
      (↑ds : Multiset (List (String × RGB))) =
        ↑(ColorPalette.PALETTES.map ColorPalette.paletteToDict) :=
  drawN_window_is_catalog (fun _ => ColorPalette.PALETTES) 0
    ColorPalette.initState rfl rfl (List.Perm.refl _)

/-- Counterexample for C1 as stated: in a 31-draw run from the initial state
whose first refill installs the catalog in order and whose second refill
installs it reversed (both legal shuffles), the window of 16 consecutive
draws numbered 15..30 straddles the refill boundary and contains the last
catalog palette twice and the first one not at all, so its multiset is not
the catalog. -/
theorem drawN_window_counterexample :
    (∀ i, (ceOracle i).Perm ColorPalette.PALETTES) ∧
    ¬ (∀ ds s1,
        ColorPalette.drawN ceOracle 31 0 ColorPalette.initState = some (ds, s1) →
        (↑((ds.drop 15).take 16) : Multiset (List (String × RGB))) =
          ↑(ColorPalette.PALETTES.map ColorPalette.paletteToDict)) := by
  constructor
  · intro i
    unfold ceOracle
    split
    · exact List.Perm.refl _
    · exact List.reverse_perm ColorPalette.PALETTES
  · intro hall
    have hrun : ColorPalette.drawN ceOracle 31 0 ColorPalette.initState =
        some (ColorPalette.PALETTES.map ColorPalette.paletteToDict ++
            (ColorPalette.PALETTES.reverse.map ColorPalette.paletteToDict).take 15,
          ⟨ColorPalette.PALETTES, ColorPalette.PALETTES.reverse.drop 15⟩) := rfl
    have hwin := hall _ _ hrun
    exact absurd hwin (by decide)

/-! ## C2 -/

/-- C2 (amended): the computed index ranges are clamped, not extended: the
lower bound max(-3, int(-margin / spacing)) always lies in [-3, 0], the upper
bound always equals int(dimension / spacing) + 3, and the ranges cover every
lattice index whose centre coordinate lies in [0, dimension].  They do NOT in
general cover [-margin, dimension + margin], let alone include 3 extra
lattice steps beyond it on each side.  The column range uses the same
formulas as the row range with the canvas width in place of the height. -/
theorem ranges_clamped (tw th dim : ℕ) (h : 0 < tw + th) :
    (∀ r : ℤ, 0 ≤ (r : ℚ) * spacing tw th → (r : ℚ) * spacing tw th ≤ (dim : ℚ) →
      min_row tw th ≤ r ∧ r < max_row dim tw th) ∧
    (-3 ≤ min_row tw th ∧ min_row tw th ≤ 0) ∧
    max_row dim tw th = pyInt ((dim : ℚ) / spacing tw th) + 3 ∧
    min_col tw th = min_row tw th ∧
    max_col dim tw th = max_row dim tw th := by
  have hs := spacing_pos h
  have hminb : -3 ≤ min_row tw th ∧ min_row tw th ≤ 0 := by
    constructor
    · exact le_max_left _ _
    · apply max_le
      · norm_num
      · apply pyInt_nonpos
        apply div_nonpos_of_nonpos_of_nonneg
        · simp
        · exact hs.le
  have hmax : max_row dim tw th = pyInt ((dim : ℚ) / spacing tw th) + 3 := by
    unfold max_row
    apply min_eq_right
    have h1 : (0 : ℚ) ≤ (dim : ℚ) / spacing tw th := div_nonneg (by positivity) hs.le
    have h2 : (0 : ℚ) ≤ ((dim : ℚ) + marginOf tw th) / spacing tw th :=
      div_nonneg (by positivity) hs.le
    rw [pyInt_of_nonneg h1, pyInt_of_nonneg h2]
    have h3 : (dim : ℚ) / spacing tw th ≤ ((dim : ℚ) + marginOf tw th) / spacing tw th := by
      gcongr
      exact le_add_of_nonneg_right (by positivity)
    exact add_le_add_right (Int.floor_mono h3) 3
  refine ⟨?_, hminb, hmax, rfl, rfl⟩
  intro r h0 h1
  have hr : (0 : ℚ) ≤ (r : ℚ) := by nlinarith
  have hrz : (0 : ℤ) ≤ r := by exact_mod_cast hr
  constructor
  · omega
  · rw [hmax]
    have hfl : r ≤ ⌊(dim : ℚ) / spacing tw th⌋ := by
      apply Int.le_floor.mpr
      rw [le_div_iff₀ hs]
      exact h1
    rw [pyInt_of_nonneg (div_nonneg (by positivity) hs.le)]
    omega

/-- Witness for C2 (amended) at text size 10 by 10 on a 100-pixel dimension. -/
theorem ranges_clamped_witness :
    0 < 10 + 10 ∧
    ((∀ r : ℤ, 0 ≤ (r : ℚ) * spacing 10 10 →
        (r : ℚ) * spacing 10 10 ≤ ((100 : ℕ) : ℚ) →
        min_row 10 10 ≤ r ∧ r < max_row 100 10 10) ∧
      (-3 ≤ min_row 10 10 ∧ min_row 10 10 ≤ 0) ∧
      max_row 100 10 10 = pyInt (((100 : ℕ) : ℚ) / spacing 10 10) + 3 ∧
      min_col 10 10 = min_row 10 10 ∧
      max_col 100 10 10 = max_row 100 10 10) :=
  ⟨by decide, ranges_clamped 10 10 100 (by decide)⟩

/-- Counterexample for C2 as stated: with measured text 10 by 10 on a 100 by
100 canvas, the interval extended by 3 lattice steps on each side contains
the lattice index -1 (its centre coordinate -12 lies in
[-margin - 3 spacing, dimension + margin + 3 spacing] = [-46, 146]), yet
min_row = max(-3, int(-10 / 12)) = 0 excludes it: the ranges neither cover
[-margin, dimension + margin] nor include 3 extra steps on each side. -/
theorem ranges_cover_counterexample :
    ¬ ((∀ r : ℤ,
          -(marginOf 10 10 : ℚ) - 3 * spacing 10 10 ≤ (r : ℚ) * spacing 10 10 →
          (r : ℚ) * spacing 10 10 ≤ ((100 : ℕ) : ℚ) + (marginOf 10 10 : ℚ) +
            3 * spacing 10 10 →
          min_row 10 10 ≤ r ∧ r < max_row 100 10 10) ∧
        (∀ c : ℤ,
          -(marginOf 10 10 : ℚ) - 3 * spacing 10 10 ≤ (c : ℚ) * spacing 10 10 →
          (c : ℚ) * spacing 10 10 ≤ ((100 : ℕ) : ℚ) + (marginOf 10 10 : ℚ) +
            3 * spacing 10 10 →
          min_col 10 10 ≤ c ∧ c < max_col 100 10 10)) := by
  intro hcl
  have h1 := (hcl.1 (-1) (by norm_num [marginOf, spacing, diagonal_spacing])
    (by norm_num [marginOf, spacing, diagonal_spacing])).1
  have h2 : min_row 10 10 = 0 := by
    norm_num [min_row, marginOf, spacing, diagonal_spacing, pyInt]
  omega

/-! ## C3 -/

/-- C3: the glyph tile builder allocates a transparent 2w by 2h surface and
draws the text in the foreground colour at full opacity before rotating by 45
degrees, but the anchor point it passes is (w // 2, h // 2), not the centre
(w, h) of that surface: evaluated at text_width = text_height = 10, the draw
position is (5, 5) while the surface centre is (10, 10).  This contradicts
the inline comment of the source (draw text at the center of the transparent
image) and the spec; the code is the slip. -/
theorem _create_rotated_text_template_off_center :
    (_create_rotated_text_template "Work" 10 10 (30, 30, 35)).surfaceW = 2 * 10 ∧
    (_create_rotated_text_template "Work" 10 10 (30, 30, 35)).surfaceH = 2 * 10 ∧
    (_create_rotated_text_template "Work" 10 10 (30, 30, 35)).surfaceColor = (0, 0, 0, 0) ∧
    (_create_rotated_text_template "Work" 10 10 (30, 30, 35)).fill = (30, 30, 35, 255) ∧
    (_create_rotated_text_template "Work" 10 10 (30, 30, 35)).anchor = "mm" ∧
    (_create_rotated_text_template "Work" 10 10 (30, 30, 35)).rotateDegrees = 45 ∧
    (_create_rotated_text_template "Work" 10 10 (30, 30, 35)).drawPos = (5, 5) ∧
    (_create_rotated_text_template "Work" 10 10 (30, 30, 35)).drawPos ≠ (10, 10) := by
  refine ⟨rfl, rfl, rfl, rfl, rfl, rfl, rfl, ?_⟩
  decide

/-! ## C4 -/

/-- C4 (amended): for a text whose measured bbox is zero by zero (as PIL
reports for the empty string), generate_wallpapers does NOT complete: the
base spacing is 0, so the row-range computation int((-margin) / spacing)
divides by zero and the call raises ZeroDivisionError before producing a
canvas. -/
theorem generate_empty_text_error (cfg : GenConfig) (text : String)
    (rest : List String) (dir : String) (width height : ℕ)
    (s0 : ColorPalette.State)
    (hdraw : (if s0.palette_queue.isEmpty then cfg.oracle 0
      else s0.palette_queue) ≠ [])
    (hm : cfg.measure text = (0, 0)) :
    generate_wallpapers cfg (text :: rest) dir width height s0 =
      .error "ZeroDivisionError" := by
  have hz := processText_zero cfg dir width height 0 s0 text hdraw (by simp [hm])
  simp only [generate_wallpapers, generateGo, hz]

/-- Witness for C4 (amended): a concrete run on the single empty text. -/
theorem generate_empty_text_error_witness :
    ((if ColorPalette.initState.palette_queue.isEmpty then ceConfig.oracle 0
        else ColorPalette.initState.palette_queue) ≠ []) ∧
    ceConfig.measure "" = (0, 0) ∧
    generate_wallpapers ceConfig [""] "out2" 640 480 ColorPalette.initState =
      .error "ZeroDivisionError" :=
  ⟨by decide, rfl,
    generate_empty_text_error ceConfig "" [] "out2" 640 480 ColorPalette.initState
      (by decide) rfl⟩

/-- Counterexample for C4 as stated: with the empty text (measured 0 by 0),
generate_wallpapers does not complete normally; it raises ZeroDivisionError. -/
theorem generate_empty_text_counterexample :
    generate_wallpapers ceConfig [""] "images" 1920 1080 ColorPalette.initState =
      .error "ZeroDivisionError" := by
  have hz := processText_zero ceConfig "images" 1920 1080 0 ColorPalette.initState ""
    (by decide) rfl
  simp only [generate_wallpapers, generateGo, hz]

/-! ## C7 -/

/-- C7 (amended): for every list of texts EACH OF WHICH MEASURES TO A NONZERO
BBOX, generate_wallpapers writes exactly one image per input text, in input
order, at path outputDir/<text>.png, each an RGB image of exactly width by
height pixels; for the empty texts list it performs no writes (the file list
is empty).  Texts with a zero-size bbox abort the batch instead (see C4). -/
theorem generate_wallpapers_writes (cfg : GenConfig) (texts : List String)
    (dir : String) (width height : ℕ) (s0 : ColorPalette.State)
    (hpal : s0.palettes = ColorPalette.PALETTES)
    (horacle : ∀ i, (cfg.oracle i).Perm ColorPalette.PALETTES)
    (hm : ∀ t ∈ texts, 0 < (cfg.measure t).1 + (cfg.measure t).2) :
    ∃ files, generate_wallpapers cfg texts dir width height s0 = .ok files ∧
      files.map (fun f => f.path) = texts.map (fun t => dir ++ "/" ++ t ++ ".png") ∧
      ∀ f ∈ files, f.mode = "RGB" ∧ f.width = width ∧ f.height = height :=
  generateGo_ok cfg dir width height horacle texts 0 s0 hpal hm

/-- Witness for C7 (amended): two texts produce exactly the two expected
files. -/
theorem generate_wallpapers_writes_witness :
    ColorPalette.initState.palettes = ColorPalette.PALETTES ∧
    (∀ t ∈ ["Work", "Personal"], 0 < (okConfig.measure t).1 + (okConfig.measure t).2) ∧
    ∃ files, generate_wallpapers okConfig ["Work", "Personal"] "images" 1920 1080
        ColorPalette.initState = .ok files ∧
      files.map (fun f => f.path) =
        ["Work", "Personal"].map (fun t => "images" ++ "/" ++ t ++ ".png") ∧
      ∀ f ∈ files, f.mode = "RGB" ∧ f.width = 1920 ∧ f.height = 1080 :=
  ⟨rfl, by decide,
    generate_wallpapers_writes okConfig ["Work", "Personal"] "images" 1920 1080
      ColorPalette.initState rfl (fun _ => List.Perm.refl _) (by decide)⟩

/-- Counterexample for C7 as stated: the nonempty texts list consisting of
the single empty string (measured bbox zero) produces no file at all: the
call aborts with ZeroDivisionError instead of writing one image per text. -/
theorem generate_wallpapers_writes_counterexample :
    ([""] ≠ ([] : List String)) ∧
    generate_wallpapers ceConfig [""] "out" 800 600 ColorPalette.initState =
      .error "ZeroDivisionError" := by
  refine ⟨by simp, ?_⟩
  have hz := processText_zero ceConfig "out" 800 600 0 ColorPalette.initState ""
    (by decide) rfl
  simp only [generate_wallpapers, generateGo, hz]

/-! ## C5 -/

/-- C5: the tiling engine uses base spacing s = ((w + h) / 2) * 1.2 and row
offset o = s * 0.5, and the positions at which the loop composites the tile
are exactly those obtained, for row and column indices in the computed
ranges that survive the culling test, as the placement centre
(col * s + row * o, row * s) minus half the rotated tile dimensions (integer
halves, truncated to int as in the source). -/
theorem tilePositions_match_formula (tw th width height tileW tileH : ℕ)
    (h : 0 < tw + th) :
    placement_formula tw th width height tileW tileH := by
  refine ⟨rfl, rfl, fun p => ?_⟩
  simp only [tilePositions, List.mem_flatMap, List.mem_filterMap, intRange_mem]
  constructor
  · rintro ⟨row, hrow, col, hcol, heq⟩
    by_cases hskip : skip_condition width height tileW tileH
      (pasteX tw th tileW row col) (pasteY tw th tileH row)
    · rw [if_pos hskip] at heq
      exact absurd heq (by simp)
    · rw [if_neg hskip] at heq
      simp only [Option.some.injEq] at heq
      refine ⟨row, col, ⟨hrow.1, hrow.2, hcol.1, hcol.2⟩, ?_, ?_⟩
      · simpa only [pasteX, centerX, pasteY, centerY] using hskip
      · rw [← heq]
        simp only [pasteX, centerX, pasteY, centerY]
  · rintro ⟨row, col, ⟨h1, h2, h3, h4⟩, hskip, hp⟩
    refine ⟨row, ⟨h1, h2⟩, col, ⟨h3, h4⟩, ?_⟩
    rw [if_neg (by simpa only [pasteX, centerX, pasteY, centerY] using hskip), hp]
    simp only [pasteX, centerX, pasteY, centerY]

/-- Witness for C5 at text size 10 by 10, canvas 200 by 100, tile 30 by 30. -/
theorem tilePositions_match_formula_witness :
    0 < 10 + 10 ∧ placement_formula 10 10 200 100 30 30 :=
  ⟨by decide, tilePositions_match_formula 10 10 200 100 30 30 (by decide)⟩

/-! ## C6 -/

/-- C6 (amended): the culling test is sound but not complete: whenever it
fires, the tile bounding box is fully disjoint from the canvas rectangle
(so no overlapping tile is ever skipped), but the converse of the claimed
equivalence fails: a disjoint tile whose box ends exactly at coordinate 0 is
not skipped (the test uses a strict paste + size < 0 comparison). -/
theorem skip_implies_disjoint (width height tileW tileH : ℕ) (px py : ℤ)
    (h : skip_condition width height tileW tileH px py) :
    tile_disjoint width height tileW tileH px py := by
  intro x y hx1 hx2 hy1 hy2 hc
  rcases h with h | h | h | h <;> omega

/-- Witness for C6 (amended): a tile pasted at x = 200 on a 100-wide canvas
is skipped, and its box is disjoint from the canvas. -/
theorem skip_implies_disjoint_witness :
    skip_condition 100 100 14 14 200 0 ∧ tile_disjoint 100 100 14 14 200 0 :=
  ⟨by decide, skip_implies_disjoint 100 100 14 14 200 0 (by decide)⟩

/-- Counterexample for C6 as stated: with measured text 10 by 2 on a 100 by
100 canvas and a 14 by 14 rotated tile, the loop candidate row -1, col 0 is
inside the computed ranges, its paste position is (-10, -14), so its box
[-10, 4) x [-14, 0) is fully disjoint from the canvas [0, 100) x [0, 100),
yet the culling test does not fire (paste_y + 14 = 0 is not < 0): skipping
is NOT equivalent to disjointness. -/
theorem cull_boundary_counterexample :
    min_row 10 2 ≤ -1 ∧ (-1 : ℤ) < max_row 100 10 2 ∧
    min_col 10 2 ≤ 0 ∧ (0 : ℤ) < max_col 100 10 2 ∧
    ¬ skip_condition 100 100 14 14 (pasteX 10 2 14 (-1) 0) (pasteY 10 2 14 (-1)) ∧
    tile_disjoint 100 100 14 14 (pasteX 10 2 14 (-1) 0) (pasteY 10 2 14 (-1)) := by
  have hx : pasteX 10 2 14 (-1) 0 = -10 := by
    norm_num [pasteX, centerX, offset, spacing, diagonal_spacing, pyInt]
  have hy : pasteY 10 2 14 (-1) = -14 := by
    norm_num [pasteY, centerY, spacing, diagonal_spacing, pyInt]
  refine ⟨?_, ?_, ?_, ?_, ?_, ?_⟩
  · norm_num [min_row, marginOf, spacing, diagonal_spacing, pyInt]
  · norm_num [max_row, marginOf, spacing, diagonal_spacing, pyInt]
  · norm_num [min_col, marginOf, spacing, diagonal_spacing, pyInt]
  · norm_num [max_col, marginOf, spacing, diagonal_spacing, pyInt]
  · rw [hx, hy]
    decide
  · rw [hx, hy]
    intro x y hx1 hx2 hy1 hy2
    omega

/-! ## C8 -/

/-- C8: for every positive target height, the font resolver is a total
function (it never fails outward); it tries the fixed preference-ordered
candidate list at size height // 5, a failed candidate only advances to the
next one, the first loadable candidate is returned at that size, and if no
candidate loads it returns the built-in default font at the reduced size
height // 10. -/
theorem _load_font_spec (avail : String → Bool) (height : ℕ) (h : 0 < height) :
    ((∀ n ∈ font_names, avail n = false) →
      _load_font avail height = (FontHandle.default, height / 10)) ∧
    (∀ l1 n l2, font_names = l1 ++ n :: l2 → (∀ m ∈ l1, avail m = false) →
      avail n = true →
      _load_font avail height = (FontHandle.truetype n (height / 5), height / 5)) := by
  constructor
  · intro hall
    simp only [_load_font, tryFonts_none hall]
  · intro l1 n l2 hsplit h1 hn
    simp only [_load_font, hsplit, tryFonts_first h1 hn]

/-- Witness for C8: with only the second candidate available at target height
100, the resolver returns that candidate at size 20. -/
theorem _load_font_spec_witness :
    0 < 100 ∧
    (((∀ n ∈ font_names, (fun m => m == "Arial Bold.ttf") n = false) →
      _load_font (fun m => m == "Arial Bold.ttf") 100 = (FontHandle.default, 100 / 10)) ∧
    (∀ l1 n l2, font_names = l1 ++ n :: l2 →
      (∀ m ∈ l1, (fun m => m == "Arial Bold.ttf") m = false) →
      (fun m => m == "Arial Bold.ttf") n = true →
      _load_font (fun m => m == "Arial Bold.ttf") 100 =
        (FontHandle.truetype n (100 / 5), 100 / 5))) :=
  ⟨by decide, _load_font_spec (fun m => m == "Arial Bold.ttf") 100 (by decide)⟩

/-! ## C9 -/

/-- C9: no sequence of draws ever modifies the palette catalog: after any
number of calls to get_random_palette, the PALETTES attribute of the state is
unchanged (so starting from the process state, it still holds the original 16
entries in their original order); only the queue component is mutated. -/
theorem drawN_preserves_PALETTES (oracle : ℕ → List Palette) (n i : ℕ)
    (s : ColorPalette.State) (ds : List (List (String × RGB)))
    (s1 : ColorPalette.State)
    (h : ColorPalette.drawN oracle n i s = some (ds, s1)) :
    s1.palettes = s.palettes := by
  induction n generalizing i s ds s1 with
  | zero =>
    simp only [ColorPalette.drawN, Option.some.injEq, Prod.mk.injEq] at h
    rw [← h.2]
  | succ n ih =>
    simp only [ColorPalette.drawN] at h
    split at h
    · exact absurd h (by simp)
    · rename_i d s2 hd
      split at h
      · exact absurd h (by simp)
      · rename_i ds2 s3 hrec
        simp only [Option.some.injEq, Prod.mk.injEq] at h
        rw [← h.2, ih (i + 1) s2 ds2 s3 hrec]
        exact get_random_palette_palettes hd

/-- Witness for C9: one draw from the initial state returns the head palette
and leaves the catalog component untouched. -/
theorem drawN_preserves_PALETTES_witness :
    ColorPalette.drawN (fun _ => ColorPalette.PALETTES) 1 0 ColorPalette.initState =
      some ([[("bg", ((30, 30, 35) : RGB)), ("fg", ((200, 200, 210) : RGB))]],
        ⟨ColorPalette.PALETTES, ColorPalette.PALETTES.tail⟩) ∧
    (⟨ColorPalette.PALETTES, ColorPalette.PALETTES.tail⟩ :
      ColorPalette.State).palettes = ColorPalette.initState.palettes :=
  ⟨rfl,
    drawN_preserves_PALETTES (fun _ => ColorPalette.PALETTES) 1 0
      ColorPalette.initState
      [[("bg", ((30, 30, 35) : RGB)), ("fg", ((200, 200, 210) : RGB))]]
      ⟨ColorPalette.PALETTES, ColorPalette.PALETTES.tail⟩ rfl⟩

/-! ## C10 -/

/-- C10: every dict returned by get_random_palette has exactly the keys bg
and fg in that order (the description label of the catalog entry is omitted),
and its (bg, fg) pair is the (bg, fg) pair of one of the 16 catalog entries
(assuming the state is well formed: catalog component equal to PALETTES,
queue drawn from PALETTES, refill list a permutation of PALETTES). -/
theorem get_random_palette_dict (shuffled : List Palette) (s : ColorPalette.State)
    (d : List (String × RGB)) (s1 : ColorPalette.State)
    (hq : ∀ p ∈ s.palette_queue, p ∈ ColorPalette.PALETTES)
    (hsh : shuffled.Perm ColorPalette.PALETTES)
    (h : ColorPalette.get_random_palette shuffled s = some (d, s1)) :
    d.map Prod.fst = ["bg", "fg"] ∧
    ∃ p ∈ ColorPalette.PALETTES, d = [("bg", p.bg), ("fg", p.fg)] := by
  unfold ColorPalette.get_random_palette at h
  cases hqueue : s.palette_queue with
  | nil =>
    rw [hqueue] at h
    simp only [List.isEmpty_nil, if_true] at h
    cases hsl : shuffled with
    | nil => rw [hsl] at h; exact absurd h (by simp)
    | cons p rest =>
      rw [hsl] at h
      simp only [Option.some.injEq, Prod.mk.injEq] at h
      rw [← h.1]
      exact ⟨rfl, p, hsh.subset (hsl ▸ List.mem_cons_self p rest), rfl⟩
  | cons p rest =>
    rw [hqueue] at h
    simp only [List.isEmpty_cons, Bool.false_eq_true, if_false] at h
    simp only [Option.some.injEq, Prod.mk.injEq] at h
    rw [← h.1]
    exact ⟨rfl, p, hq p (hqueue ▸ List.mem_cons_self p rest), rfl⟩

/-- Witness for C10: drawing from the initial state with an unshuffled refill
returns the bg/fg dict of the first catalog entry. -/
theorem get_random_palette_dict_witness :
    ([("bg", ((30, 30, 35) : RGB)), ("fg", ((200, 200, 210) : RGB))].map
        Prod.fst = ["bg", "fg"] ∧
      ∃ p ∈ ColorPalette.PALETTES,
        [("bg", ((30, 30, 35) : RGB)), ("fg", ((200, 200, 210) : RGB))] =
          [("bg", p.bg), ("fg", p.fg)]) :=
  get_random_palette_dict ColorPalette.PALETTES ColorPalette.initState
    [("bg", ((30, 30, 35) : RGB)), ("fg", ((200, 200, 210) : RGB))]
    ⟨ColorPalette.PALETTES, ColorPalette.PALETTES.tail⟩
    (by simp [ColorPalette.initState]) (List.Perm.refl _) rfl
